import Mathlib

/-!
Verification of the rule-based scholarship decision engine
(source: src/LAB_REPORT_3.py).

The engine's data are Python values.  In this development a fact value or a
condition literal is a `Value`: a number (Python int/float, modelled as an
exact rational), a text string, or a sequence of scalars — the data model the
engine is specified over.  A Python `TypeError` raised by a comparison is
modelled by `Option`: `none` is a raised exception, `some b` a returned bool.

A second, untyped layer (`Doc`) models arbitrary parsed JSON documents and the
module-level loading boundary (`json.loads` wrapped in `try/except`) together
with the engine running on raw documents, Python's duck typing included; it is
used for claims about the load/parse boundary.
-/

namespace Engine

/-- A numeric or textual scalar (Python int/float/str). -/
inductive Scalar where
  | num (q : ℚ)
  | str (s : String)
deriving DecidableEq

/-- A fact value or condition literal: scalar, or sequence of scalars. -/
inductive Value where
  | num (q : ℚ)
  | str (s : String)
  | seq (l : List Scalar)
deriving DecidableEq

/-- Lexicographic strict order on char lists: Python string `<`. -/
def chListLt : List Char → List Char → Bool
  | [], [] => false
  | [], _ :: _ => true
  | _ :: _, [] => false
  | a :: as, b :: bs => a < b || (a == b && chListLt as bs)

/-- Python string comparison is lexicographic by code point. -/
def strLtB (s t : String) : Bool := chListLt s.data t.data

/-- Does char list `n` occur as a prefix of `l`? -/
def chStartsWith : List Char → List Char → Bool
  | [], _ => true
  | _ :: _, [] => false
  | a :: as, b :: bs => a == b && chStartsWith as bs

/-- Does char list `n` occur contiguously inside `l`?  (Python `n in l` on
strings; the empty string is contained in every string.) -/
def chContains (n : List Char) : List Char → Bool
  | [] => chStartsWith n []
  | b :: bs => chStartsWith n (b :: bs) || chContains n bs

/-- Python substring test: `s in t`. -/
def strIn (s t : String) : Bool := chContains s.data t.data

/-- The four ordered-comparison operators of `OPS`. -/
inductive OrdKind where
  | lt
  | le
  | gt
  | ge
deriving DecidableEq

/-- Ordered comparison on Python numbers (exact rationals). -/
def qOrd : OrdKind → ℚ → ℚ → Bool
  | .lt, a, b => decide (a < b)
  | .le, a, b => decide (a ≤ b)
  | .gt, a, b => decide (b < a)
  | .ge, a, b => decide (b ≤ a)

/-- Ordered comparison on Python strings. -/
def strOrd : OrdKind → String → String → Bool
  | .lt, a, b => strLtB a b
  | .le, a, b => strLtB a b || a == b
  | .gt, a, b => strLtB b a
  | .ge, a, b => strLtB b a || a == b

/-- Ordered comparison on naturals (used for Python's list-length tie-break). -/
def natOrd : OrdKind → Nat → Nat → Bool
  | .lt, a, b => decide (a < b)
  | .le, a, b => decide (a ≤ b)
  | .gt, a, b => decide (b < a)
  | .ge, a, b => decide (b ≤ a)

/-- Python `==` on scalars: cross-type comparison is `False`, never an error. -/
def scalarEq : Scalar → Scalar → Bool
  | .num a, .num b => a == b
  | .str a, .str b => a == b
  | _, _ => false

/-- Python ordered comparison on scalars: comparing a number with a string
raises `TypeError` (`none`). -/
def scalarOrd : OrdKind → Scalar → Scalar → Option Bool
  | k, .num a, .num b => some (qOrd k a b)
  | k, .str a, .str b => some (strOrd k a b)
  | _, _, _ => none

/-- Python `==` on values: elementwise on sequences (with a length check),
`False` across types, never an error. -/
def pyEq : Value → Value → Bool
  | .num a, .num b => a == b
  | .str a, .str b => a == b
  | .seq a, .seq b => a.length == b.length && (a.zip b).all fun p => scalarEq p.1 p.2
  | _, _ => false

/-- Python list comparison: walk to the first non-equal pair and compare it
with the operator (which may raise); if one list is a prefix of the other the
lengths are compared with the operator. -/
def seqOrd (k : OrdKind) : List Scalar → List Scalar → Option Bool
  | x :: xs, y :: ys =>
    if scalarEq x y then seqOrd k xs ys else scalarOrd k x y
  | xs, ys => some (natOrd k xs.length ys.length)

/-- Python ordered comparison on values: numbers with numbers, strings with
strings, sequences elementwise; any other combination raises `TypeError`. -/
def pyOrd (k : OrdKind) : Value → Value → Option Bool
  | .num a, .num b => some (qOrd k a b)
  | .str a, .str b => some (strOrd k a b)
  | .seq a, .seq b => seqOrd k a b
  | _, _ => none

/-- View a scalar as a value (for membership tests on sequences). -/
def Scalar.toValue : Scalar → Value
  | .num q => .num q
  | .str s => .str s

/-- Python `a in b`: membership in a sequence (via `==`), substring test when
`b` is a string and `a` is a string; otherwise `TypeError` (`b` not iterable,
or `in <string>` with a non-string left operand). -/
def pyIn (a : Value) : Value → Option Bool
  | .seq l => some (l.any fun s => pyEq a s.toValue)
  | .str t =>
    match a with
    | .str s => some (strIn s t)
    | _ => none
  | .num _ => none

/-- The operator dispatch table `OPS` (lines 7-16 of the source): a mapping
from operator symbol to the Python comparison it performs. -/
def OPS : List (String × (Value → Value → Option Bool)) :=
  [("==", fun a b => some (pyEq a b)),
   ("!=", fun a b => some (!pyEq a b)),
   (">", pyOrd .gt),
   (">=", pyOrd .ge),
   ("<", pyOrd .lt),
   ("<=", pyOrd .le),
   ("in", pyIn),
   ("not_in", fun a b => (pyIn a b).map (!·))]

/-- A condition triple `[field, operator, literal]`. -/
structure Condition where
  field : String
  op : String
  value : Value
deriving DecidableEq

/-- An action payload; every action in the source carries a decision label and
a reason string. -/
structure Action where
  decision : String
  reason : String
deriving DecidableEq

/-- A rule: name, integer priority, AND-ed conditions, opaque action. -/
structure Rule where
  name : String
  priority : Int
  conditions : List Condition
  action : Action
deriving DecidableEq

/-- A fact mapping: field identifiers to values (Python dict, unique keys). -/
def Facts := List (String × Value)

/-- `evaluate_condition(facts, cond)` (lines 69-71):
`field in facts and op in OPS and OPS[op](facts[field], value)`.
A missing field or an operator symbol outside `OPS` short-circuits to
`False`; otherwise the dispatched comparison runs (and may raise). -/
def evaluate_condition (facts : Facts) (c : Condition) : Option Bool :=
  match List.lookup c.field facts with
  | none => some false
  | some a =>
    match List.lookup c.op OPS with
    | none => some false
    | some f => f a c.value

/-- Python's `all(...)` over the condition generator: short-circuits at the
first `False`, propagates the first raised exception. -/
def allConds (facts : Facts) : List Condition → Option Bool
  | [] => some true
  | c :: cs =>
    match evaluate_condition facts c with
    | none => none
    | some false => some false
    | some true => allConds facts cs

/-- `rule_matches(facts, rule)` (lines 73-74). -/
def rule_matches (facts : Facts) (r : Rule) : Option Bool :=
  allConds facts r.conditions

/-- The list comprehension `[r for r in rules if rule_matches(facts, r)]`:
keeps input order, propagates a raised exception. -/
def matchedRules (facts : Facts) : List Rule → Option (List Rule)
  | [] => some []
  | r :: rs =>
    match rule_matches facts r with
    | none => none
    | some true => (matchedRules facts rs).map (r :: ·)
    | some false => matchedRules facts rs

/-- Stable insertion for a descending-priority sort: a new element passes over
exactly the elements of strictly greater priority, so earlier input elements
stay in front of later ones of equal priority. -/
def insertDesc (r : Rule) : List Rule → List Rule
  | [] => [r]
  | x :: xs => if r.priority < x.priority then x :: insertDesc r xs else r :: x :: xs

/-- Stable descending sort by priority, the behaviour of Python's
`sorted(matched, key=lambda r: r["priority"], reverse=True)` (Python's sort is
stable; `reverse=True` reverses the comparison, not the result, so equal
priorities keep their input order). -/
def sortDesc : List Rule → List Rule
  | [] => []
  | r :: rs => insertDesc r (sortDesc rs)

/-- The reserved fallback action of line 79. -/
def fallbackAction : Action := ⟨"REVIEW", "No rule matched"⟩

/-- `run_rules(facts, rules)` (lines 76-81): collect the matching rules; if
none, return the fallback action with an empty list; otherwise sort by
priority descending (stably) and return the top rule's action with the full
sorted list.  `none` models an exception escaping `run_rules`. -/
def run_rules (facts : Facts) (rules : List Rule) : Option (Action × List Rule) :=
  match matchedRules facts rules with
  | none => none
  | some matched =>
    match sortDesc matched with
    | [] => some (fallbackAction, [])
    | top :: rest => some (top.action, top :: rest)

/-- `DEFAULT_RULES` (lines 18-67). -/
def DEFAULT_RULES : List Rule :=
  [{ name := "Top merit candidate",
     priority := 100,
     conditions :=
       [⟨"cgpa", ">=", .num (mkRat 37 10)⟩,
        ⟨"co_curricular_score", ">=", .num (mkRat 80 1)⟩,
        ⟨"family_income", "<=", .num (mkRat 8000 1)⟩,
        ⟨"disciplinary_actions", "==", .num (mkRat 0 1)⟩],
     action := ⟨"AWARD_FULL",
                "Excellent academic & co-curricular performance with acceptable need"⟩ },
   { name := "Good candidate - partial scholarship",
     priority := 80,
     conditions :=
       [⟨"cgpa", ">=", .num (mkRat 33 10)⟩,
        ⟨"co_curricular_score", ">=", .num (mkRat 60 1)⟩,
        ⟨"family_income", "<=", .num (mkRat 12000 1)⟩,
        ⟨"disciplinary_actions", "<=", .num (mkRat 1 1)⟩],
     action := ⟨"AWARD_PARTIAL",
                "Good academic & involvement record with moderate need"⟩ },
   { name := "Need-based review",
     priority := 70,
     conditions :=
       [⟨"cgpa", ">=", .num (mkRat 25 10)⟩,
        ⟨"family_income", "<=", .num (mkRat 4000 1)⟩],
     action := ⟨"REVIEW",
                "High need but borderline academic score"⟩ },
   { name := "Low CGPA – not eligible",
     priority := 95,
     conditions := [⟨"cgpa", "<", .num (mkRat 25 10)⟩],
     action := ⟨"REJECT",
                "CGPA below minimum scholarship requirement"⟩ },
   { name := "Serious disciplinary record",
     priority := 90,
     conditions := [⟨"disciplinary_actions", ">=", .num (mkRat 2 1)⟩],
     action := ⟨"REJECT",
                "Too many disciplinary records"⟩ }]

/-- Scenario B fact mapping:
`{cgpa: 2.0, family_income: 3000, co_curricular_score: 0, disciplinary_actions: 0}`. -/
def scenarioB_facts : Facts :=
  [("cgpa", .num (mkRat 20 10)),
   ("family_income", .num (mkRat 3000 1)),
   ("co_curricular_score", .num (mkRat 0 1)),
   ("disciplinary_actions", .num (mkRat 0 1))]

/-- Scenario D fact mapping (no default rule matches it):
`{cgpa: 3.0, family_income: 20000, co_curricular_score: 10, disciplinary_actions: 0}`. -/
def scenarioD_facts : Facts :=
  [("cgpa", .num (mkRat 30 10)),
   ("family_income", .num (mkRat 20000 1)),
   ("co_curricular_score", .num (mkRat 10 1)),
   ("disciplinary_actions", .num (mkRat 0 1))]

/-- The "Need-based review" rule (index 2 of `DEFAULT_RULES`). -/
def needBasedRule : Rule := DEFAULT_RULES.getD 2 ⟨"", 0, [], ⟨"", ""⟩⟩

/-- The "Low CGPA – not eligible" rule (index 3 of `DEFAULT_RULES`). -/
def lowCgpaRule : Rule := DEFAULT_RULES.getD 3 ⟨"", 0, [], ⟨"", ""⟩⟩

/-- Erase the display-only `name` field of a rule. -/
def stripName (r : Rule) : Rule :=
  { name := "", priority := r.priority, conditions := r.conditions, action := r.action }

/-! ## The document layer

`json.loads` hands the program an arbitrary parsed JSON value, and the rule
editor lets the user feed any document to `run_rules`.  `Doc` models such a
value (numbers, strings, arrays, objects; object key lists are those of the
parsed dict, so keys are unique).  The engine run on raw documents follows
Python's duck typing: `none` again models a raised exception
(`KeyError`, `TypeError`, `ValueError`, `IndexError`). -/

/-- A parsed JSON document. -/
inductive Doc where
  | num (q : ℚ)
  | str (s : String)
  | arr (elems : List Doc)
  | obj (fields : List (String × Doc))

/-- Python subscripting `d[k]` with a string key: a key lookup on a dict
(`KeyError` when absent), a `TypeError` on any other value. -/
def getItem (d : Doc) (k : String) : Option Doc :=
  match d with
  | .obj kvs => List.lookup k kvs
  | _ => none

/-- Python iteration `for x in d`: the elements of a list, the characters of
a string (as one-character strings), the keys of a dict; a number is not
iterable (`TypeError`). -/
def iterDoc : Doc → Option (List Doc)
  | .arr l => some l
  | .str s => some (s.data.map fun c => Doc.str (String.mk [c]))
  | .obj kvs => some (kvs.map fun kv => Doc.str kv.1)
  | .num _ => none

/-- Python unpacking `field, op, value = cond`: an iterable of exactly three
elements — a 3-list, a 3-character string, or a 3-key dict; anything else
raises. -/
def unpack3 : Doc → Option (Doc × Doc × Doc)
  | .arr [a, b, c] => some (a, b, c)
  | .str s =>
    match s.data with
    | [a, b, c] => some (.str (String.mk [a]), .str (String.mk [b]), .str (String.mk [c]))
    | _ => none
  | .obj [x, y, z] => some (.str x.1, .str y.1, .str z.1)
  | _ => none

/-- The eight operator symbols of `OPS`, as a closed enumeration for the
document layer. -/
inductive OpId where
  | eq
  | ne
  | gt
  | ge
  | lt
  | le
  | mem
  | nmem
deriving DecidableEq

/-- Which `OPS` entry a symbol denotes, if any. -/
def opIdOf : String → Option OpId
  | "==" => some .eq
  | "!=" => some .ne
  | ">" => some .gt
  | ">=" => some .ge
  | "<" => some .lt
  | "<=" => some .le
  | "in" => some .mem
  | "not_in" => some .nmem
  | _ => none

/-- Python `==` between a scalar fact component and a document: `False`
across types (a scalar never equals a list or a dict). -/
def scalarDocEq : Scalar → Doc → Bool
  | .num a, .num b => a == b
  | .str a, .str b => a == b
  | _, _ => false

/-- Python `==` between a fact value and a document literal. -/
def valueDocEq : Value → Doc → Bool
  | .num a, .num b => a == b
  | .str a, .str b => a == b
  | .seq l, .arr dl =>
    l.length == dl.length && (l.zip dl).all fun p => scalarDocEq p.1 p.2
  | _, _ => false

/-- Python ordered comparison between a scalar and a document: numbers with
numbers, strings with strings, otherwise `TypeError`. -/
def scalarDocOrd (k : OrdKind) : Scalar → Doc → Option Bool
  | .num a, .num b => some (qOrd k a b)
  | .str a, .str b => some (strOrd k a b)
  | _, _ => none

/-- Python list comparison between a fact sequence and a document array:
first non-equal pair decides (and may raise), otherwise the lengths do. -/
def seqDocOrd (k : OrdKind) : List Scalar → List Doc → Option Bool
  | x :: xs, d :: ds =>
    if scalarDocEq x d then seqDocOrd k xs ds else scalarDocOrd k x d
  | xs, ds => some (natOrd k xs.length ds.length)

/-- Python ordered comparison between a fact value and a document literal;
dicts admit no ordering (`TypeError`). -/
def valueDocOrd (k : OrdKind) : Value → Doc → Option Bool
  | .num a, .num b => some (qOrd k a b)
  | .str a, .str b => some (strOrd k a b)
  | .seq l, .arr dl => seqDocOrd k l dl
  | _, _ => none

/-- Python `a in b` with a document right operand: membership in a list (by
`==`), substring test in a string, key membership in a dict; a number is not
iterable, and an unhashable left operand raises on a dict. -/
def valueDocIn (a : Value) : Doc → Option Bool
  | .arr dl => some (dl.any fun d => valueDocEq a d)
  | .str t =>
    match a with
    | .str s => some (strIn s t)
    | _ => none
  | .obj kvs =>
    match a with
    | .str s => some (kvs.any fun kv => kv.1 == s)
    | .num _ => some false
    | .seq _ => none
  | .num _ => none

/-- Dispatch of `OPS[op](fact value, document literal)` in the document
layer. -/
def docApply : OpId → Value → Doc → Option Bool
  | .eq, a, v => some (valueDocEq a v)
  | .ne, a, v => some (!valueDocEq a v)
  | .gt, a, v => valueDocOrd .gt a v
  | .ge, a, v => valueDocOrd .ge a v
  | .lt, a, v => valueDocOrd .lt a v
  | .le, a, v => valueDocOrd .le a v
  | .mem, a, v => valueDocIn a v
  | .nmem, a, v => (valueDocIn a v).map (!·)

/-- `field in facts` when the field came from a raw document: a string is
looked up, any other hashable value is simply not a key (`False` path), an
unhashable value (list/dict) raises.  The outer `Option` is the raise, the
inner one the lookup result. -/
def fieldLookup (facts : Facts) : Doc → Option (Option Value)
  | .str s => some (List.lookup s facts)
  | .num _ => some none
  | _ => none

/-- `op in OPS` when the operator came from a raw document: only strings can
be keys, a number is hashable but absent, a list/dict raises. -/
def opTest : Doc → Option (Option OpId)
  | .str s => some (opIdOf s)
  | .num _ => some none
  | _ => none

/-- `evaluate_condition` on a raw document condition: unpack the triple, then
the same short-circuit chain as the typed layer. -/
def evaluate_condition_doc (facts : Facts) (c : Doc) : Option Bool :=
  match unpack3 c with
  | none => none
  | some (f, o, v) =>
    match fieldLookup facts f with
    | none => none
    | some none => some false
    | some (some a) =>
      match opTest o with
      | none => none
      | some none => some false
      | some (some k) => docApply k a v

/-- `all(...)` over raw document conditions. -/
def allCondsDoc (facts : Facts) : List Doc → Option Bool
  | [] => some true
  | c :: cs =>
    match evaluate_condition_doc facts c with
    | none => none
    | some false => some false
    | some true => allCondsDoc facts cs

/-- `rule_matches` on a raw document rule: `rule["conditions"]` may raise,
then the conditions value is iterated. -/
def rule_matches_doc (facts : Facts) (r : Doc) : Option Bool :=
  match getItem r "conditions" with
  | none => none
  | some cv =>
    match iterDoc cv with
    | none => none
    | some cs => allCondsDoc facts cs

/-- The matching-rule comprehension over raw documents. -/
def matchedDocs (facts : Facts) : List Doc → Option (List Doc)
  | [] => some []
  | r :: rs =>
    match rule_matches_doc facts r with
    | none => none
    | some true => (matchedDocs facts rs).map (r :: ·)
    | some false => matchedDocs facts rs

/-- Stable descending insertion for documents keyed by a rational. -/
def insQ (x : ℚ × Doc) : List (ℚ × Doc) → List (ℚ × Doc)
  | [] => [x]
  | y :: ys => if x.1 < y.1 then y :: insQ x ys else x :: y :: ys

/-- Stable descending insertion sort for documents keyed by a rational. -/
def insSortQ : List (ℚ × Doc) → List (ℚ × Doc)
  | [] => []
  | x :: xs => insQ x (insSortQ xs)

/-- Stable descending insertion for documents keyed by a string. -/
def insS (x : String × Doc) : List (String × Doc) → List (String × Doc)
  | [] => [x]
  | y :: ys => if strLtB x.1 y.1 then y :: insS x ys else x :: y :: ys

/-- Stable descending insertion sort for documents keyed by a string. -/
def insSortS : List (String × Doc) → List (String × Doc)
  | [] => []
  | x :: xs => insS x (insSortS xs)

/-- `r["priority"]` for every matched document, in list order (Python's
`sorted` evaluates the key function on each element first; the first failing
lookup raises). -/
def getPriorities : List Doc → Option (List Doc)
  | [] => some []
  | r :: rs =>
    match getItem r "priority" with
    | none => none
    | some p => (getPriorities rs).map (p :: ·)

/-- The keys as rationals, when every key is a number. -/
def toQKeys : List Doc → Option (List ℚ)
  | [] => some []
  | .num q :: t => (toQKeys t).map (q :: ·)
  | _ => none

/-- The keys as strings, when every key is a string. -/
def toSKeys : List Doc → Option (List String)
  | [] => some []
  | .str s :: t => (toSKeys t).map (s :: ·)
  | _ => none

/-- `sorted(matched, key=lambda r: r["priority"], reverse=True)` on raw
documents.  A list of at most one element is never compared; an all-number or
all-string key list sorts stably descending; a mixed or unorderable key list
makes the sort raise `TypeError` (every inserted element is compared against
an element already placed, so mixed numeric/string keys always collide). -/
def sortDocsByPriorityDesc (ms : List Doc) : Option (List Doc) :=
  match getPriorities ms with
  | none => none
  | some keys =>
    if ms.length ≤ 1 then some ms
    else
      match toQKeys keys with
      | some qs => some ((insSortQ (qs.zip ms)).map (·.2))
      | none =>
        match toSKeys keys with
        | some ss => some ((insSortS (ss.zip ms)).map (·.2))
        | none => none

/-- The fallback action of line 79, as a document. -/
def fallbackDoc : Doc :=
  .obj [("decision", .str "REVIEW"), ("reason", .str "No rule matched")]

/-- `run_rules` on a raw rules document: iterate it, collect matches, sort,
return `matched_sorted[0]["action"]` with the sorted list (either subscript
may raise). -/
def run_rules_doc (facts : Facts) (rulesDoc : Doc) : Option (Doc × List Doc) :=
  match iterDoc rulesDoc with
  | none => none
  | some rs =>
    match matchedDocs facts rs with
    | none => none
    | some [] => some (fallbackDoc, [])
    | some (m :: ms) =>
      match sortDocsByPriorityDesc (m :: ms) with
      | none => none
      | some sorted =>
        match sorted.head? with
        | none => none
        | some top =>
          match getItem top "action" with
          | none => none
          | some act => some (act, sorted)

/-- Serialize a typed value back to a document. -/
def Value.toDoc : Value → Doc
  | .num q => .num q
  | .str s => .str s
  | .seq l => .arr (l.map fun s => match s with | .num q => Doc.num q | .str t => Doc.str t)

/-- Serialize a typed condition back to a document triple. -/
def Condition.toDoc (c : Condition) : Doc :=
  .arr [.str c.field, .str c.op, c.value.toDoc]

/-- Serialize a typed rule back to a document object. -/
def Rule.toDoc (r : Rule) : Doc :=
  .obj [("name", .str r.name),
        ("priority", .num (mkRat r.priority 1)),
        ("conditions", .arr (r.conditions.map Condition.toDoc)),
        ("action", .obj [("decision", .str r.action.decision),
                         ("reason", .str r.action.reason)])]

/-- The default rule collection as the document the engine receives. -/
def defaultDoc : Doc := .arr (DEFAULT_RULES.map Rule.toDoc)

/-- The module-level loading boundary (lines 136-140): `json.loads` inside
`try/except`.  A document that parses at all (`some d`) is used verbatim; only
a parse failure (`none`) is caught and replaced by `DEFAULT_RULES` (with a
warning shown). -/
def loadRules : Option Doc → Doc
  | none => defaultDoc
  | some d => d

/-- The whole evaluation path of the page (lines 136-143): load the rule
document, then call `run_rules` on it with the collected facts. -/
def pipeline (parsed : Option Doc) (facts : Facts) : Option (Doc × List Doc) :=
  run_rules_doc facts (loadRules parsed)

/-- Modelled from the spec: the §6 boundary-validation contract, which the
source does not implement as code.  A rules document is well shaped when it is
an array of objects, each with a string `name`, an integer `priority`, a
`conditions` array whose members are 3-element `[field, operator, literal]`
arrays with a string field and a string operator, and an `action`. -/
def specCondOk : Doc → Bool
  | .arr [.str _, .str _, _] => true
  | _ => false

/-- Modelled from the spec: well-shapedness of a single rule object (§6). -/
def specRuleOk (r : Doc) : Bool :=
  match r with
  | .obj kvs =>
    (match List.lookup "name" kvs with
     | some (.str _) => true
     | _ => false) &&
    (match List.lookup "priority" kvs with
     | some (.num q) => q.den == 1
     | _ => false) &&
    (match List.lookup "conditions" kvs with
     | some (.arr cs) => cs.all specCondOk
     | _ => false) &&
    (List.lookup "action" kvs).isSome
  | _ => false

/-- Modelled from the spec: well-shapedness of a whole rules document (§6). -/
def specWellShapedRules : Doc → Bool
  | .arr rs => rs.all specRuleOk
  | _ => false

/-- A parseable but ill-shaped rules document: one rule object that lacks the
required `name`, `conditions` and `action` keys. -/
def badRulesDoc : Doc := .arr [.obj [("priority", .num (mkRat 1 1))]]

/-! ## Supporting lemmas -/

theorem insertDesc_perm (r : Rule) : ∀ l : List Rule, List.Perm (insertDesc r l) (r :: l)
  | [] => List.Perm.refl _
  | x :: xs => by
    unfold insertDesc
    split
    · exact (List.Perm.cons x (insertDesc_perm r xs)).trans (List.Perm.swap r x xs)
    · exact List.Perm.refl _

theorem sortDesc_perm : ∀ l : List Rule, List.Perm (sortDesc l) l
  | [] => List.Perm.refl _
  | r :: rs => (insertDesc_perm r (sortDesc rs)).trans (List.Perm.cons r (sortDesc_perm rs))

theorem mem_insertDesc {y r : Rule} {l : List Rule} (h : y ∈ insertDesc r l) :
    y = r ∨ y ∈ l :=
  List.mem_cons.mp ((insertDesc_perm r l).mem_iff.mp h)

/-- Priority-descending order between two rules. -/
def geP (a b : Rule) : Prop := b.priority ≤ a.priority

theorem insertDesc_sorted (r : Rule) :
    ∀ l : List Rule, l.Pairwise geP → (insertDesc r l).Pairwise geP
  | [], _ => List.pairwise_singleton _ _
  | x :: xs, h => by
    rw [List.pairwise_cons] at h
    unfold insertDesc
    split
    · rename_i hlt
      rw [List.pairwise_cons]
      refine ⟨fun y hy => ?_, insertDesc_sorted r xs h.2⟩
      rcases mem_insertDesc hy with rfl | hy
      · exact le_of_lt hlt
      · exact h.1 y hy
    · rename_i hnlt
      rw [List.pairwise_cons]
      refine ⟨fun y hy => ?_, List.pairwise_cons.mpr h⟩
      rcases List.mem_cons.mp hy with rfl | hy
      · exact not_lt.mp hnlt
      · exact le_trans (h.1 y hy) (not_lt.mp hnlt)

theorem sortDesc_sorted : ∀ l : List Rule, (sortDesc l).Pairwise geP
  | [] => List.Pairwise.nil
  | r :: rs => insertDesc_sorted r (sortDesc rs) (sortDesc_sorted rs)

theorem filter_insertDesc (p : Int) (r : Rule) :
    ∀ l : List Rule,
      (insertDesc r l).filter (fun x => x.priority == p)
        = if r.priority == p then r :: l.filter (fun x => x.priority == p)
          else l.filter (fun x => x.priority == p)
  | [] => by
    by_cases hr : r.priority = p <;> simp [insertDesc, List.filter_cons, hr]
  | x :: xs => by
    unfold insertDesc
    split
    · rename_i hlt
      by_cases hr : r.priority = p
      · have hx : ¬ x.priority = p := by
          intro hx
          rw [hr, hx] at hlt
          exact lt_irrefl p hlt
        simp [List.filter_cons, filter_insertDesc p r xs, hr, hx]
      · simp [List.filter_cons, filter_insertDesc p r xs, hr]
    · by_cases hr : r.priority = p <;>
        simp [List.filter_cons, hr]

theorem sortDesc_filter (p : Int) :
    ∀ l : List Rule,
      (sortDesc l).filter (fun x => x.priority == p) = l.filter (fun x => x.priority == p)
  | [] => rfl
  | r :: rs => by
    unfold sortDesc
    rw [filter_insertDesc p r (sortDesc rs), sortDesc_filter p rs, List.filter_cons]

theorem matchedRules_eq_filter (facts : Facts) :
    ∀ {rules m : List Rule}, matchedRules facts rules = some m →
      m = rules.filter (fun r => rule_matches facts r == some true)
  | [], m, h => by
    simpa [matchedRules] using h.symm
  | r :: rs, m, h => by
    unfold matchedRules at h
    rcases hm : rule_matches facts r with _ | b
    · rw [hm] at h
      exact absurd h (by simp)
    · rcases b with _ | _
      · rw [hm] at h
        rw [List.filter_cons, ← matchedRules_eq_filter facts h]
        simp [hm]
      · rw [hm] at h
        rcases hrec : matchedRules facts rs with _ | m'
        · rw [hrec] at h
          exact absurd h (by simp)
        · rw [hrec] at h
          rw [Option.map_some'] at h
          have hm2 : r :: m' = m := Option.some.inj h
          rw [List.filter_cons, ← matchedRules_eq_filter facts hrec, ← hm2]
          simp [hm]

theorem matchedRules_none_matching (facts : Facts) :
    ∀ {rules : List Rule}, (∀ r ∈ rules, rule_matches facts r = some false) →
      matchedRules facts rules = some []
  | [], _ => rfl
  | r :: rs, h => by
    unfold matchedRules
    rw [h r (List.mem_cons_self r rs)]
    exact matchedRules_none_matching facts fun x hx => h x (List.mem_cons_of_mem r hx)

theorem allConds_true_iff (facts : Facts) :
    ∀ cs : List Condition,
      allConds facts cs = some true ↔ ∀ c ∈ cs, evaluate_condition facts c = some true
  | [] => by simp [allConds]
  | c :: cs => by
    unfold allConds
    rcases hc : evaluate_condition facts c with _ | b
    · simp [hc]
    · rcases b with _ | _
      · simp [hc]
      · simp [hc, allConds_true_iff facts cs]

/-- Rule matching is exactly "every condition evaluates to true". -/
theorem rule_matches_true_iff (facts : Facts) (r : Rule) :
    rule_matches facts r = some true ↔
      ∀ c ∈ r.conditions, evaluate_condition facts c = some true :=
  allConds_true_iff facts r.conditions

theorem rule_matches_stripName (facts : Facts) (r : Rule) :
    rule_matches facts (stripName r) = rule_matches facts r := rfl

theorem matchedRules_map_stripName (facts : Facts) :
    ∀ rules : List Rule,
      matchedRules facts (rules.map stripName)
        = (matchedRules facts rules).map (List.map stripName)
  | [] => rfl
  | r :: rs => by
    simp only [List.map_cons, matchedRules]
    rw [show rule_matches facts (stripName r) = rule_matches facts r from rfl]
    cases hm : rule_matches facts r with
    | none => rfl
    | some b =>
      cases b with
      | false => exact matchedRules_map_stripName facts rs
      | true =>
        rw [matchedRules_map_stripName facts rs]
        cases matchedRules facts rs <;> rfl

theorem insertDesc_map_stripName (r : Rule) :
    ∀ l : List Rule, insertDesc (stripName r) (l.map stripName) = (insertDesc r l).map stripName
  | [] => rfl
  | x :: xs => by
    simp only [List.map_cons, insertDesc]
    rw [show (stripName r).priority = r.priority from rfl,
        show (stripName x).priority = x.priority from rfl]
    by_cases hlt : r.priority < x.priority
    · rw [if_pos hlt, if_pos hlt, insertDesc_map_stripName r xs, List.map_cons]
    · rw [if_neg hlt, if_neg hlt, List.map_cons, List.map_cons]

theorem sortDesc_map_stripName :
    ∀ l : List Rule, sortDesc (l.map stripName) = (sortDesc l).map stripName
  | [] => rfl
  | r :: rs => by
    simp only [List.map_cons, sortDesc]
    rw [sortDesc_map_stripName rs]
    exact insertDesc_map_stripName r (sortDesc rs)

theorem run_rules_map_stripName (facts : Facts) (rules : List Rule) :
    run_rules facts (rules.map stripName)
      = (run_rules facts rules).map (fun p => (p.1, p.2.map stripName)) := by
  unfold run_rules
  rw [matchedRules_map_stripName facts rules]
  cases matchedRules facts rules with
  | none => rfl
  | some m =>
    simp only [Option.map_some']
    rw [sortDesc_map_stripName m]
    cases sortDesc m with
    | nil => rfl
    | cons top rest => rfl

theorem run_rules_some_sortDesc {facts : Facts} {rules : List Rule} {act : Action}
    {ranked : List Rule} (h : run_rules facts rules = some (act, ranked)) :
    ∃ m, matchedRules facts rules = some m ∧ ranked = sortDesc m := by
  unfold run_rules at h
  split at h
  · exact absurd h (by simp)
  · rename_i m hm
    split at h
    · rename_i hsd
      simp only [Option.some.injEq, Prod.mk.injEq] at h
      exact ⟨m, hm, by rw [← h.2, hsd]⟩
    · rename_i top rest hsd
      simp only [Option.some.injEq, Prod.mk.injEq] at h
      exact ⟨m, hm, by rw [← h.2, hsd]⟩

theorem run_rules_top_action {facts : Facts} {rules : List Rule} {act : Action}
    {top : Rule} {rest : List Rule} (h : run_rules facts rules = some (act, top :: rest)) :
    act = top.action := by
  unfold run_rules at h
  split at h
  · exact absurd h (by simp)
  · rename_i m hm
    split at h
    · simp at h
    · rename_i t ts hsd
      simp only [Option.some.injEq, Prod.mk.injEq] at h
      obtain ⟨ha, hl⟩ := h
      injection hl with h1 h2
      rw [← ha, h1]

/-- The closed set of operator symbols recognized by `OPS`. -/
def opSymbols : List String := ["==", "!=", ">", ">=", "<", "<=", "in", "not_in"]

theorem lookup_OPS_eq_none {s : String} (h : s ∉ opSymbols) : List.lookup s OPS = none := by
  simp only [opSymbols, List.mem_cons, List.not_mem_nil, or_false, not_or] at h
  obtain ⟨h1, h2, h3, h4, h5, h6, h7, h8⟩ := h
  simp [OPS, List.lookup, beq_eq_false_iff_ne.mpr h1, beq_eq_false_iff_ne.mpr h2,
    beq_eq_false_iff_ne.mpr h3, beq_eq_false_iff_ne.mpr h4, beq_eq_false_iff_ne.mpr h5,
    beq_eq_false_iff_ne.mpr h6, beq_eq_false_iff_ne.mpr h7, beq_eq_false_iff_ne.mpr h8]

/-! ## The claims -/

/-- C1: for every fact mapping and rule collection, when `run_rules` returns
normally its ranked list contains exactly the matching rules of the input
(each occurrence exactly once, as a permutation of the matching sublist), is
sorted by priority descending, and preserves the original input order among
rules of equal priority (stable sort). -/
theorem run_rules_ranked_exact_sorted_stable (facts : Facts) (rules : List Rule)
    (act : Action) (ranked : List Rule)
    (h : run_rules facts rules = some (act, ranked)) :
    List.Perm ranked (rules.filter fun r => rule_matches facts r == some true) ∧
    ranked.Pairwise geP ∧
    ∀ p : Int,
      ranked.filter (fun r => r.priority == p)
        = (rules.filter fun r => rule_matches facts r == some true).filter
            (fun r => r.priority == p) := by
  obtain ⟨m, hm, hranked⟩ := run_rules_some_sortDesc h
  have hfil := matchedRules_eq_filter facts hm
  subst hranked
  refine ⟨?_, sortDesc_sorted m, ?_⟩
  · rw [← hfil]
    exact sortDesc_perm m
  · intro p
    rw [← hfil]
    exact sortDesc_filter p m

theorem run_rules_ranked_exact_sorted_stable_witness :
    List.Perm [lowCgpaRule]
        (DEFAULT_RULES.filter fun r => rule_matches scenarioB_facts r == some true) ∧
    ([lowCgpaRule] : List Rule).Pairwise geP ∧
    ([lowCgpaRule] : List Rule).filter (fun r => r.priority == (95 : Int))
      = (DEFAULT_RULES.filter fun r => rule_matches scenarioB_facts r == some true).filter
          (fun r => r.priority == (95 : Int)) := by
  have h := run_rules_ranked_exact_sorted_stable scenarioB_facts DEFAULT_RULES
    lowCgpaRule.action [lowCgpaRule] rfl
  exact ⟨h.1, h.2.1, h.2.2 95⟩

/-- C2: for every fact mapping and rule collection, if no rule matches then
`run_rules` returns the fallback action `{decision: REVIEW, reason: No rule
matched}` with an empty ranked list; and whenever the ranked list is
non-empty, the governing action equals the action of its first element. -/
theorem run_rules_fallback_and_top_action (facts : Facts) (rules : List Rule) :
    ((∀ r ∈ rules, rule_matches facts r = some false) →
      run_rules facts rules = some (fallbackAction, [])) ∧
    (∀ (act : Action) (top : Rule) (rest : List Rule),
      run_rules facts rules = some (act, top :: rest) → act = top.action) := by
  constructor
  · intro h
    unfold run_rules
    rw [matchedRules_none_matching facts h]
    rfl
  · intro act top rest h
    exact run_rules_top_action h

theorem run_rules_fallback_and_top_action_witness :
    run_rules scenarioD_facts DEFAULT_RULES = some (fallbackAction, []) ∧
    lowCgpaRule.action = lowCgpaRule.action := by
  refine ⟨(run_rules_fallback_and_top_action scenarioD_facts DEFAULT_RULES).1 ?_,
    (run_rules_fallback_and_top_action scenarioB_facts DEFAULT_RULES).2
      lowCgpaRule.action lowCgpaRule [] rfl⟩
  decide

/-- C3: a condition whose field is absent from the fact mapping evaluates to
`False` — not an error — whatever its operator and literal are. -/
theorem evaluate_condition_missing_field_false (facts : Facts) (c : Condition)
    (h : List.lookup c.field facts = none) :
    evaluate_condition facts c = some false := by
  unfold evaluate_condition
  rw [h]

theorem evaluate_condition_missing_field_false_witness :
    evaluate_condition ([] : Facts) ⟨"cgpa", ">=", Value.num (mkRat 1 1)⟩ = some false :=
  evaluate_condition_missing_field_false ([] : Facts)
    ⟨"cgpa", ">=", Value.num (mkRat 1 1)⟩ rfl

/-- C4: a rule with an empty conditions sequence matches every fact
mapping (vacuous truth). -/
theorem rule_matches_empty_conditions (facts : Facts) (r : Rule)
    (h : r.conditions = []) :
    rule_matches facts r = some true := by
  unfold rule_matches
  rw [h]
  rfl

theorem rule_matches_empty_conditions_witness :
    rule_matches scenarioB_facts ⟨"Catch-all", 0, [], ⟨"REVIEW", "always"⟩⟩ = some true :=
  rule_matches_empty_conditions scenarioB_facts
    ⟨"Catch-all", 0, [], ⟨"REVIEW", "always"⟩⟩ rfl

/-- C5: a condition whose operator symbol is not one of the eight recognized
symbols evaluates to `False` rather than raising. -/
theorem evaluate_condition_unknown_op_false (facts : Facts) (c : Condition)
    (h : c.op ∉ opSymbols) :
    evaluate_condition facts c = some false := by
  unfold evaluate_condition
  cases List.lookup c.field facts with
  | none => rfl
  | some a => rw [lookup_OPS_eq_none h]

theorem evaluate_condition_unknown_op_false_witness :
    evaluate_condition scenarioB_facts ⟨"cgpa", "=", Value.num (mkRat 1 1)⟩ = some false :=
  evaluate_condition_unknown_op_false scenarioB_facts
    ⟨"cgpa", "=", Value.num (mkRat 1 1)⟩ (by decide)

/-- C6 counterexample: with the scenario-B facts the priority-70 rule
"Need-based review" does NOT match (its condition `cgpa >= 2.5` fails on
`cgpa = 2.0`); the full matching profile of the default rules shows only the
priority-95 "Low CGPA" rule matching. -/
theorem scenarioB_matching_profile :
    DEFAULT_RULES.map (fun r => (r.name, r.priority, rule_matches scenarioB_facts r))
      = [("Top merit candidate", 100, some false),
         ("Good candidate - partial scholarship", 80, some false),
         ("Need-based review", 70, some false),
         ("Low CGPA – not eligible", 95, some true),
         ("Serious disciplinary record", 90, some false)] := rfl

/-- C6 (amended): with facts `{cgpa: 2.0, family_income: 3000,
co_curricular_score: 0, disciplinary_actions: 0}` the "Low CGPA" rule
(priority 95) is the only matching rule and wins; the governing decision is
REJECT; "Need-based review" (priority 70) does not match. -/
theorem run_rules_scenarioB_reject :
    run_rules scenarioB_facts DEFAULT_RULES = some (lowCgpaRule.action, [lowCgpaRule]) ∧
    lowCgpaRule.action.decision = "REJECT" ∧
    lowCgpaRule.priority = 95 ∧
    rule_matches scenarioB_facts needBasedRule = some false ∧
    needBasedRule.priority = 70 :=
  ⟨rfl, rfl, rfl, rfl, rfl⟩

/-- C7 counterexample: the engine DOES raise at the condition level for
malformed rule content — ordering a numeric fact against a string literal
raises `TypeError` (modelled by `none`), the exception escapes `run_rules`,
and `in` with a non-sequence right operand raises as well. -/
theorem run_rules_type_error_example :
    evaluate_condition [("x", Value.num (mkRat 1 1))] ⟨"x", ">", Value.str "a"⟩ = none ∧
    run_rules [("x", Value.num (mkRat 1 1))]
        [⟨"r", 1, [⟨"x", ">", Value.str "a"⟩], ⟨"D", "R"⟩⟩] = none ∧
    evaluate_condition [("x", Value.num (mkRat 1 1))] ⟨"x", "in", Value.num (mkRat 5 1)⟩
      = none :=
  ⟨rfl, rfl, rfl⟩

/-- C7 (amended): the engine never raises for a missing fact or for an
unrecognized operator symbol — such conditions evaluate to `False` — but a
condition whose literal is not comparison-compatible with the fact value
(or whose `in`/`not_in` right operand is not a sequence) raises a
`TypeError` that propagates out of evaluation. -/
theorem evaluate_condition_lenient_cases (facts : Facts) (c : Condition)
    (h : List.lookup c.field facts = none ∨ c.op ∉ opSymbols) :
    evaluate_condition facts c = some false := by
  cases h with
  | inl h => exact evaluate_condition_missing_field_false facts c h
  | inr h => exact evaluate_condition_unknown_op_false facts c h

theorem evaluate_condition_lenient_cases_witness :
    evaluate_condition ([] : Facts) ⟨"missing", ">", Value.str "a"⟩ = some false :=
  evaluate_condition_lenient_cases ([] : Facts) ⟨"missing", ">", Value.str "a"⟩
    (Or.inl rfl)

/-- C8 counterexample: a parseable but ill-shaped rules document — one rule
object having only a `priority` key — is NOT rejected at the load boundary:
the `try/except` passes it through verbatim and the engine then raises
(`KeyError` on `rule["conditions"]`) during `run_rules`. -/
theorem ill_shaped_doc_reaches_engine :
    loadRules (some badRulesDoc) = badRulesDoc ∧
    specWellShapedRules badRulesDoc = false ∧
    pipeline (some badRulesDoc) scenarioB_facts = none :=
  ⟨rfl, rfl, rfl⟩

/-- The action document of the "Low CGPA" rule. -/
def lowCgpaActionDoc : Doc :=
  .obj [("decision", .str "REJECT"),
        ("reason", .str "CGPA below minimum scholarship requirement")]

/-- C8 (amended): the boundary rejects only documents that fail to parse,
substituting the well-shaped `DEFAULT_RULES`, on which evaluation completes;
every document that parses — well-shaped or not — is handed to the engine
verbatim. -/
theorem load_boundary_only_rejects_parse_failures :
    (∀ d : Doc, loadRules (some d) = d) ∧
    loadRules none = defaultDoc ∧
    specWellShapedRules defaultDoc = true ∧
    pipeline none scenarioB_facts = some (lowCgpaActionDoc, [lowCgpaRule.toDoc]) :=
  ⟨fun _ => rfl, rfl, rfl, rfl⟩

/-- C9: the `name` field of rules never influences matching or ranking: two
rule collections equal after erasing names produce, for every fact mapping,
the same governing action and ranked lists equal at every position on
priority, conditions and action (equal after erasing names). -/
theorem run_rules_ignores_names (facts : Facts) (rules₁ rules₂ : List Rule)
    (h : rules₁.map stripName = rules₂.map stripName) :
    (run_rules facts rules₁).map (fun p => (p.1, p.2.map stripName))
      = (run_rules facts rules₂).map (fun p => (p.1, p.2.map stripName)) := by
  rw [← run_rules_map_stripName facts rules₁, ← run_rules_map_stripName facts rules₂, h]

theorem run_rules_ignores_names_witness :
    (run_rules scenarioB_facts [⟨"A", 1, [], ⟨"X", "Y"⟩⟩]).map
        (fun p => (p.1, p.2.map stripName))
      = (run_rules scenarioB_facts [⟨"B", 1, [], ⟨"X", "Y"⟩⟩]).map
          (fun p => (p.1, p.2.map stripName)) :=
  run_rules_ignores_names scenarioB_facts
    [⟨"A", 1, [], ⟨"X", "Y"⟩⟩] [⟨"B", 1, [], ⟨"X", "Y"⟩⟩] rfl

/-- C10: every default rule is well shaped — it has the four required keys,
an integer priority, and 3-element condition triples whose operator symbols
are all keys of `OPS`, so evaluation never takes the unknown-operator branch
and unpacking a default condition never fails. -/
theorem default_rules_well_shaped :
    DEFAULT_RULES.all (fun r => r.conditions.all fun c => (List.lookup c.op OPS).isSome)
      = true ∧
    DEFAULT_RULES.all (fun r => r.conditions.all fun c => (unpack3 c.toDoc).isSome)
      = true ∧
    specWellShapedRules defaultDoc = true :=
  ⟨rfl, rfl, rfl⟩

end Engine
